import Mathlib

/-!
Verification of the n8n command-routing service layer.

This file shallowly embeds the routing core of the repository
(`src/services/n8nRouter.js`, `src/services/endpointManager.js`,
`src/services/routingTableBuilder.js`, `src/services/responseTransformer.js`,
`src/services/responseNormalizers.js`, `src/services/responseValidators.js`,
`src/services/responseUtils.js`, `src/services/fallbackResponseManager.js`,
`src/services/concurrentRequestManager.js`, and the retry condition of
`src/services/requestHandler.js`) and proves the testable properties stated
in the specification against that embedding.

JavaScript runtime values that flow through these modules are modelled by the
`JsValue` type; JS truthiness, property access, property assignment, object
spread and the `||` operator are modelled by the functions directly below.
External effects (the HTTP stack, `Date.now`, `JSON.parse`, `Buffer`) are
abstracted as explicit parameters, collected in `JsRuntime`.
-/

namespace N8n

/-- Model of a JavaScript (JSON-like) runtime value.  `undefined` is not a
constructor: absent object properties are modelled with `Option` at the
access sites. -/
inductive JsValue where
  | null : JsValue
  | bool (b : Bool) : JsValue
  | num (n : Int) : JsValue
  | str (s : String) : JsValue
  | obj (fields : List (String × JsValue)) : JsValue
  | arr (elems : List JsValue) : JsValue

/-- JS truthiness of a defined value. -/
def truthy : JsValue → Bool
  | .null => false
  | .bool b => b
  | .num n => n != 0
  | .str s => s != ""
  | .obj _ => true
  | .arr _ => true

/-- First-match lookup of a field in an object field list (JS object keys are
unique, so first-match agrees with JS property access). -/
def lookupField : List (String × JsValue) → String → Option JsValue
  | [], _ => none
  | (k', v) :: rest, k => if k' = k then some v else lookupField rest k

/-- JS property assignment `o.k = v`: overwrite in place when the key is
present, append otherwise. -/
def setField : List (String × JsValue) → String → JsValue → List (String × JsValue)
  | [], k, v => [(k, v)]
  | (k', v') :: rest, k, v => if k' = k then (k, v) :: rest else (k', v') :: setField rest k v

/-- JS property access `v.k`; `none` models `undefined`. -/
def jsGet : JsValue → String → Option JsValue
  | .obj fields, k => lookupField fields k
  | _, _ => none

/-- Truthiness of a property access, `undefined` being falsy. -/
def truthyOpt : Option JsValue → Bool
  | none => false
  | some v => truthy v

/-- JS `a || b` where `a` is a (possibly undefined) property access. -/
def jsOr (a : Option JsValue) (b : JsValue) : JsValue :=
  match a with
  | some v => if truthy v then v else b
  | none => b

/-- JS object spread `{...v}`.  Spreading a non-object contributes no string
keys on the code paths embedded here (the sources only spread objects,
`undefined` or `null`). -/
def spreadFields : JsValue → List (String × JsValue)
  | .obj fields => fields
  | _ => []

/-- Spread of a possibly-undefined value, as in `{...data.metadata}`. -/
def spreadOpt : Option JsValue → List (String × JsValue)
  | none => []
  | some v => spreadFields v

/-- JS object literal: assignments applied left to right (a later duplicate
key overwrites the value of an earlier one in place). -/
def mkObj (ps : List (String × JsValue)) : List (String × JsValue) :=
  ps.foldl (fun acc p => setField acc p.1 p.2) []

/-- JS `typeof` for the modelled values. -/
def jsTypeof : JsValue → String
  | .null => "object"
  | .bool _ => "boolean"
  | .num _ => "number"
  | .str _ => "string"
  | .obj _ => "object"
  | .arr _ => "object"

/-- A single-quote character as a string (used in source error messages). -/
def sq : String := String.singleton (Char.ofNat 39)

/-- First-match lookup in a string-valued header map. -/
def lookupStr : List (String × String) → String → Option String
  | [], _ => none
  | (k', v) :: rest, k => if k' = k then some v else lookupStr rest k

/-- JS `a || b` for a possibly-absent string (empty string is falsy). -/
def jsOrStr (a : Option String) (b : String) : String :=
  match a with
  | some s => if s != "" then s else b
  | none => b

/-- An HTTP response as axios delivers it to the transformation layer. -/
structure HttpResponse where
  status : Nat
  statusText : String
  data : JsValue
  headers : List (String × String)

/-- External JS facilities used by the embedded code, abstracted as explicit
inputs: `JSON.parse` (returning `none` when it would throw), `parseInt(_, 10)`,
`Buffer.byteLength` of a string and of `JSON.stringify` of a value,
`new Date().toISOString()` and `Date.now()` at the time of the call. -/
structure JsRuntime where
  jsonParse : String → Option JsValue
  parseInt10 : String → Int
  byteLengthStr : String → Nat
  byteLengthJson : JsValue → Nat
  nowIso : String
  now : Nat

/-! ## ResponseNormalizers (`src/services/responseNormalizers.js`) -/

/-- Embeds `ResponseNormalizers.normalizeScrapeResponse`. -/
def normalizeScrapeResponse (data : List (String × JsValue)) : List (String × JsValue) :=
  let content := jsOr (lookupField data "content")
    (jsOr (lookupField data "text") (jsOr (lookupField data "html") .null))
  let metadata := mkObj
    ([("url", jsOr (lookupField data "url") (jsOr (lookupField data "source_url") .null)),
      ("title", jsOr (lookupField data "title") .null),
      ("description", jsOr (lookupField data "description")
        (jsOr (lookupField data "summary") .null))]
     ++ spreadOpt (lookupField data "metadata"))
  let stats := mkObj
    ([("processingTime", jsOr (lookupField data "processing_time")
        (jsOr (lookupField data "duration") .null)),
      ("size", jsOr (lookupField data "content_size") (jsOr (lookupField data "size") .null))]
     ++ spreadOpt (lookupField data "stats"))
  setField (setField (setField data "content" content) "metadata" (.obj metadata))
    "stats" (.obj stats)

/-- Embeds `ResponseNormalizers.normalizeProcessResponse`. -/
def normalizeProcessResponse (data : List (String × JsValue)) : List (String × JsValue) :=
  let result := jsOr (lookupField data "result")
    (jsOr (lookupField data "output") (jsOr (lookupField data "response") .null))
  let status := jsOr (lookupField data "status") (.str "completed")
  let processingInfo := mkObj
    ([("steps", jsOr (lookupField data "steps") (jsOr (lookupField data "stages") (.arr []))),
      ("duration", jsOr (lookupField data "duration")
        (jsOr (lookupField data "processing_time") .null))]
     ++ spreadOpt (lookupField data "processing_info"))
  setField (setField (setField data "result" result) "status" status)
    "processingInfo" (.obj processingInfo)

/-- The id back-fill line of `normalizeResponseObject`
(`if (!normalized.id && data.id) normalized.id = data.id`). -/
def normalizeIdStep (data : JsValue) (normalized : List (String × JsValue)) :
    List (String × JsValue) :=
  if !truthyOpt (lookupField normalized "id") && truthyOpt (jsGet data "id") then
    setField normalized "id" ((jsGet data "id").getD .null)
  else normalized

/-- The timestamp back-fill line of `normalizeResponseObject`
(insert a fresh `timestamp` when both `timestamp` and `createdAt` are falsy). -/
def normalizeTimestampStep (nowIso : String) (normalized : List (String × JsValue)) :
    List (String × JsValue) :=
  if !truthyOpt (lookupField normalized "timestamp")
      && !truthyOpt (lookupField normalized "createdAt") then
    setField normalized "timestamp" (.str nowIso)
  else normalized

/-- Embeds `ResponseNormalizers.normalizeResponseObject`.  `nowIso` is the
`new Date().toISOString()` value generated when the timestamp is inserted. -/
def normalizeResponseObject (data : JsValue) (commandType : String) (nowIso : String) :
    JsValue :=
  let normalized := spreadFields data
  let normalized := normalizeIdStep data normalized
  let normalized := normalizeTimestampStep nowIso normalized
  match commandType with
  | "scrape" => .obj (normalizeScrapeResponse normalized)
  | "process" => .obj (normalizeProcessResponse normalized)
  | _ => .obj normalized

/-- Embeds `ResponseNormalizers.parseResponseData`.  `jsonParse` abstracts
`JSON.parse`, with `none` standing for a parse failure (thrown exception). -/
def parseResponseData (jsonParse : String → Option JsValue) (data : JsValue)
    (commandType nowIso : String) : JsValue :=
  if !truthy data then .null
  else
    match data with
    | .obj _ => normalizeResponseObject data commandType nowIso
    | .arr _ => normalizeResponseObject data commandType nowIso
    | .str s =>
      match jsonParse s with
      | some parsed => normalizeResponseObject parsed commandType nowIso
      | none => .obj [("content", .str s), ("type", .str "text")]
    | _ => .obj [("content", data), ("type", .str (jsTypeof data))]

/-! ## ResponseValidators (`src/services/responseValidators.js`) -/

/-- Result of `ResponseValidators.validateResponseData`. -/
structure ValidationResult where
  valid : Bool
  warnings : List String

/-- Embeds `ResponseValidators.validateResponseData`. -/
def validateResponseData (data : JsValue) (commandType : String) : ValidationResult :=
  if !truthy data then
    { valid := false, warnings := ["Response data is null or undefined"] }
  else
    let warnings :=
      match commandType with
      | "scrape" =>
        if !truthyOpt (jsGet data "content") && !truthyOpt (jsGet data "text")
            && !truthyOpt (jsGet data "html") then
          ["Scrape response missing content data"]
        else []
      | "process" =>
        if !truthyOpt (jsGet data "result") && !truthyOpt (jsGet data "output") then
          ["Process response missing result data"]
        else []
      | _ => []
    { valid := warnings.length = 0, warnings }

/-- Embeds `response.statusText || "HTTP <status> Error"`. -/
def statusTextOrDefault (response : HttpResponse) : String :=
  if response.statusText != "" then response.statusText
  else "HTTP " ++ toString response.status ++ " Error"

/-- Embeds `ResponseValidators.extractErrorMessage`. -/
def extractErrorMessage (response : HttpResponse) : JsValue :=
  if truthy response.data then
    match response.data with
    | .str s => .str s
    | d =>
      if truthyOpt (jsGet d "message") then (jsGet d "message").getD .null
      else if truthyOpt (jsGet d "error") then (jsGet d "error").getD .null
      else .str (statusTextOrDefault response)
  else .str (statusTextOrDefault response)

/-- Embeds `ResponseValidators.categorizeError`. -/
def categorizeError (status : Nat) : String :=
  if 400 ≤ status ∧ status < 500 then "client_error"
  else if 500 ≤ status then "server_error"
  else "unknown_error"

/-! ## ResponseUtils (`src/services/responseUtils.js`) -/

/-- The allow-list of headers kept by `ResponseUtils.extractRelevantHeaders`. -/
def importantHeaders : List String :=
  ["content-type", "content-length", "x-response-time", "x-request-id", "cache-control", "etag"]

/-- Embeds `ResponseUtils.extractRelevantHeaders` (an absent or empty header value is
falsy and is skipped). -/
def extractRelevantHeaders (headers : List (String × String)) : List (String × String) :=
  importantHeaders.foldl
    (fun acc h =>
      match lookupStr headers h with
      | some v => if v != "" then acc ++ [(h, v)] else acc
      | none => acc) []

/-- Embeds `ResponseUtils.calculateResponseSize`. -/
def calculateResponseSize (rt : JsRuntime) (response : HttpResponse) : Int :=
  let cl := lookupStr response.headers "content-length"
  if (cl.getD "") != "" then rt.parseInt10 (cl.getD "")
  else if truthy response.data then
    match response.data with
    | .str s => (rt.byteLengthStr s : Int)
    | .obj _ => (rt.byteLengthJson response.data : Int)
    | .arr _ => (rt.byteLengthJson response.data : Int)
    | _ => 0
  else 0

/-! ## ResponseTransformer (`src/services/responseTransformer.js`) -/

/-- The `error` sub-object of a result envelope. -/
structure ErrorInfo where
  code : Nat
  message : JsValue
  details : JsValue
  type : String

/-- The uniform result envelope (`RoutingResult` of the specification).
Keys the source omits on a given shape are modelled by the defaults
(`data := .null`, `error := none`, `metadata := .null`, `routing := none`,
`fallback := false`, `warnings := []`). -/
structure RoutingResult where
  success : Bool
  commandType : String
  status : Nat
  timestamp : String
  responseTime : Int
  requestId : Option String
  data : JsValue := .null
  error : Option ErrorInfo := none
  metadata : JsValue := .null
  routing : Option JsValue := none
  fallback : Bool := false
  warnings : List String := []

/-- The options object the router passes to `transformResponse`
(`{ requestId, startTime, routing }`). -/
structure TransformOptions where
  startTime : Option Nat := none
  requestId : Option String := none
  routing : Option JsValue := none

/-- Embeds `ResponseTransformer.transformErrorResponse`. -/
def transformErrorResponse (response : HttpResponse) (base : RoutingResult) :
    RoutingResult :=
  { base with
    success := false
    error := some
      { code := response.status
        message := extractErrorMessage response
        details := if truthy response.data then response.data else .null
        type := categorizeError response.status }
    data := .null }

/-- Lift a filtered string header map to a JS object. -/
def headersToObj (hs : List (String × String)) : JsValue :=
  .obj (hs.map (fun p => (p.1, .str p.2)))

/-- Embeds `ResponseTransformer.transformSuccessResponse`. -/
def transformSuccessResponse (rt : JsRuntime) (response : HttpResponse)
    (commandType : String) (base : RoutingResult) (options : TransformOptions) :
    RoutingResult :=
  let data := parseResponseData rt.jsonParse response.data commandType rt.nowIso
  let metadata : JsValue := .obj
    [("headers", headersToObj (extractRelevantHeaders response.headers)),
     ("contentType", .str (jsOrStr (lookupStr response.headers "content-type") "unknown")),
     ("size", .num (calculateResponseSize rt response)),
     ("encoding", .str (jsOrStr (lookupStr response.headers "content-encoding") "none"))]
  let routing := options.routing.map (fun rv => JsValue.obj
    [("endpoint", (jsGet rv "endpoint").getD .null),
     ("priority", (jsGet rv "priority").getD .null),
     ("environment", (jsGet rv "environment").getD .null)])
  let validation := validateResponseData data commandType
  { base with
    data := data
    metadata := metadata
    routing := routing
    warnings := if !validation.valid then validation.warnings else base.warnings }

/-- Embeds `ResponseTransformer.transformResponse`. -/
def transformResponse (rt : JsRuntime) (response : HttpResponse) (commandType : String)
    (options : TransformOptions) : RoutingResult :=
  let startTime :=
    match options.startTime with
    | some t => if t ≠ 0 then t else rt.now
    | none => rt.now
  let responseTime : Int := (rt.now : Int) - (startTime : Int)
  let base : RoutingResult :=
    { success := true
      commandType := commandType
      status := response.status
      timestamp := rt.nowIso
      responseTime := responseTime
      requestId := options.requestId }
  if response.status ≥ 400 then transformErrorResponse response base
  else transformSuccessResponse rt response commandType base options

/-! ## FallbackResponseManager (`src/services/fallbackResponseManager.js`) -/

/-- Constructor configuration of `FallbackResponseManager`. -/
structure FallbackConfig where
  defaultRetryAfter : String := "60s"
  includeDebugInfo : Bool := false

/-- The `options` argument of the fallback builders. -/
structure FallbackOptions where
  customMessage : Option String := none
  retryAfter : Option String := none
  details : Option String := none

/-- Embeds `FallbackResponseManager.createCircuitBreakerFallback`. -/
def createCircuitBreakerFallback (cfg : FallbackConfig) (commandType requestId : String)
    (startTime : Nat) (rt : JsRuntime) (options : FallbackOptions) : RoutingResult :=
  { success := false
    commandType := commandType
    status := 503
    timestamp := rt.nowIso
    responseTime := (rt.now : Int) - (startTime : Int)
    requestId := some requestId
    error := some
      { code := 503
        message := .str (jsOrStr options.customMessage
          ("Service temporarily unavailable - circuit breaker is open for " ++ commandType))
        details := .str
          "The service is temporarily unavailable due to repeated failures. Please try again later."
        type := "circuit_breaker_open" }
    data := .null
    fallback := true
    metadata := .obj
      [("circuitBreakerState", .str "open"),
       ("retryAfter", .str (jsOrStr options.retryAfter cfg.defaultRetryAfter)),
       ("fallbackType", .str "circuit_breaker")] }

/-- Embeds `FallbackResponseManager.createRateLimitFallback`. -/
def createRateLimitFallback (commandType requestId : String)
    (startTime : Nat) (rt : JsRuntime) (options : FallbackOptions) : RoutingResult :=
  { success := false
    commandType := commandType
    status := 429
    timestamp := rt.nowIso
    responseTime := (rt.now : Int) - (startTime : Int)
    requestId := some requestId
    error := some
      { code := 429
        message := .str "Rate limit exceeded. Please try again later."
        details := .str ("Too many requests for " ++ commandType ++ ". Rate limit will reset soon.")
        type := "rate_limit_exceeded" }
    data := .null
    fallback := true
    metadata := .obj
      [("retryAfter", .str (jsOrStr options.retryAfter "30s")),
       ("fallbackType", .str "rate_limit")] }

/-- Embeds `FallbackResponseManager.createServiceUnavailableFallback`. -/
def createServiceUnavailableFallback (cfg : FallbackConfig) (commandType requestId : String)
    (startTime : Nat) (rt : JsRuntime) (options : FallbackOptions) : RoutingResult :=
  { success := false
    commandType := commandType
    status := 503
    timestamp := rt.nowIso
    responseTime := (rt.now : Int) - (startTime : Int)
    requestId := some requestId
    error := some
      { code := 503
        message := .str "Service temporarily unavailable"
        details := .str (jsOrStr options.details
          "The requested service is currently unavailable. Please try again later.")
        type := "service_unavailable" }
    data := .null
    fallback := true
    metadata := .obj
      [("retryAfter", .str (jsOrStr options.retryAfter cfg.defaultRetryAfter)),
       ("fallbackType", .str "service_unavailable")] }

/-! ## RoutingTableBuilder (`src/services/routingTableBuilder.js`)

The routing table is a `Map` from command type to a merged configuration
object; it is modelled as an association list built in the same key order,
looked up first-match (keys of a JS object are unique). -/

/-- Embeds `environmentsConfig[environment]?.overrides?.endpoints || {}`. -/
def envEndpointOverrides (environmentsConfig : JsValue) (environment : String) : JsValue :=
  jsOr ((jsGet environmentsConfig environment).bind
    (fun v => (jsGet v "overrides").bind (fun w => jsGet w "endpoints"))) (.obj [])

/-- Embeds `RoutingTableBuilder.buildRoutingTable`: merge every base entry with the
environment override for its command type and stamp the build metadata. -/
def buildRoutingTable (endpointsConfig : List (String × JsValue))
    (environmentsConfig : JsValue) (environment nowIso : String) :
    List (String × JsValue) :=
  let envOverrides := envEndpointOverrides environmentsConfig environment
  endpointsConfig.map (fun p =>
    let baseConfig := p.2
    let overrideConfig := jsOr (jsGet envOverrides p.1) (.obj [])
    (p.1, .obj (mkObj (spreadFields baseConfig ++ spreadFields overrideConfig
      ++ [("commandType", .str p.1), ("environment", .str environment),
          ("lastUpdated", .str nowIso)]))))

/-- Embeds `RoutingTableBuilder.getRoute` (`none` models the `|| null`). -/
def getRoute (routingTable : List (String × JsValue)) (commandType : String) :
    Option JsValue :=
  lookupField routingTable commandType

/-- Result of `RoutingTableBuilder.isCommandSupported`. -/
structure SupportStatus where
  supported : Bool
  reason : Option String := none

/-- Embeds `RoutingTableBuilder.isCommandSupported`. -/
def isCommandSupported (routingTable : List (String × JsValue)) (commandType : String) :
    SupportStatus :=
  match getRoute routingTable commandType with
  | none => { supported := false, reason := some "not_configured" }
  | some config =>
    if !truthyOpt (jsGet config "enabled") then
      { supported := false, reason := some "disabled" }
    else { supported := true }

/-! ## EndpointManager (`src/services/endpointManager.js`) -/

/-- Embeds `EndpointManager.getEndpointConfig`: `null` for a falsy command type, a
missing route, or a route whose `enabled` flag is falsy. -/
def getEndpointConfig (routingTable : List (String × JsValue)) (commandType : String) :
    Option JsValue :=
  if commandType = "" then none
  else
    match getRoute routingTable commandType with
    | none => none
    | some config =>
      if !truthyOpt (jsGet config "enabled") then none else some config

/-- The routing information object built by `EndpointManager.routeCommand`. -/
structure RoutingInfo where
  commandType : String
  endpoint : JsValue
  routing : JsValue
  metadata : JsValue

/-- The `options` argument of `EndpointManager.routeCommand` /
`N8NRouter.routeCommand`. -/
structure RouteOptions where
  headers : List (String × JsValue) := []
  routingStrategy : Option String := none

/-- Embeds `EndpointManager.routeCommand`.  `routeRid` abstracts the internally
generated tracing request id, `now`/`nowIso` the clock reads. -/
def emRouteCommand (routingTable : List (String × JsValue)) (commandType : String)
    (options : RouteOptions) (routeRid : String) (now : Nat) (nowIso : String) :
    Option RoutingInfo :=
  match getEndpointConfig routingTable commandType with
  | none => none
  | some config => some
    { commandType := commandType
      endpoint := .obj (mkObj
        [("url", (jsGet config "url").getD .null),
         ("method", jsOr (jsGet config "method") (.str "POST")),
         ("timeout", jsOr (jsGet config "timeout") (.num 30000)),
         ("retries", jsOr (jsGet config "retries") (.num 3)),
         ("priority", jsOr (jsGet config "priority") (.num 1)),
         ("headers", .obj (mkObj
           ([("Content-Type", .str "application/json"),
             ("X-Command-Type", .str commandType),
             ("X-Environment", (jsGet config "environment").getD .null),
             ("X-Request-Id", .str routeRid)]
            ++ spreadOpt (jsGet config "headers") ++ options.headers)))])
      routing := .obj (mkObj
        [("environment", (jsGet config "environment").getD .null),
         ("priority", jsOr (jsGet config "priority") (.num 1)),
         ("lastUpdated", (jsGet config "lastUpdated").getD .null),
         ("routingStrategy", .str (jsOrStr options.routingStrategy "default"))])
      metadata := .obj
        [("commandType", .str commandType),
         ("timestamp", .str nowIso),
         ("routeId", .str (commandType ++ "-" ++ toString now))] }

/-! ## N8NRouter.routeCommand (`src/services/n8nRouter.js`)

The router owns an `activeRequests` set of request ids (a JS `Set`, modelled
as a `Finset String`) bounded by `maxConcurrentRequests`.  The HTTP stack
behind `circuitBreaker.fire` is abstracted as a `FireResult` input: either the
resolved response, or a rejection carrying the error name and message together
with the breaker's `opened` flag at the time the rejection is observed. -/

/-- Outcome of the awaited `circuitBreaker.fire(requestConfig)`. -/
inductive FireResult where
  | success (response : HttpResponse)
  | failure (errName errMessage : String)

/-- What `routeCommand` does from the caller's point of view: resolve with a
result object, or reject (throw). -/
inductive RouteOutcome where
  | ok (result : RoutingResult)
  | thrown (message : String)

/-- Observable effects of one `routeCommand` call: the outcome, the
`activeRequests` set after the `finally` block, the set of endpoints having a
circuit breaker afterwards, and how many times `circuitBreaker.fire` was
invoked (an upper bound on HTTP calls issued by the call). -/
structure RouteCommandResult where
  outcome : RouteOutcome
  activeAfter : Finset String
  breakersAfter : Finset String
  fireCalls : Nat

/-- Embeds `N8NRouter.routeCommand`.  `maxConcurrentRequests` is the resolved router
configuration value; `requestId` abstracts the freshly generated id;
`startTime` is the `Date.now()` read at entry (`rt.now` plays the later
reads). -/
def routeCommand (maxConcurrentRequests : Nat) (routingTable : List (String × JsValue))
    (fbCfg : FallbackConfig) (rt : JsRuntime) (breakers : Finset String)
    (breakerOpened : Bool) (fire : FireResult) (activeBefore : Finset String)
    (requestId commandType : String) (options : RouteOptions) (routeRid : String)
    (startTime : Nat) : RouteCommandResult :=
  if activeBefore.card ≥ maxConcurrentRequests then
    { outcome := .thrown "Maximum concurrent requests exceeded"
      activeAfter := activeBefore.erase requestId
      breakersAfter := breakers
      fireCalls := 0 }
  else
    let active := insert requestId activeBefore
    match emRouteCommand routingTable commandType options routeRid rt.now rt.nowIso with
    | none =>
      { outcome := .thrown ("No endpoint configured for command type: " ++ commandType)
        activeAfter := active.erase requestId
        breakersAfter := breakers
        fireCalls := 0 }
    | some routingInfo =>
      let support := isCommandSupported routingTable commandType
      if !support.supported then
        { outcome := .thrown ("Command " ++ sq ++ commandType ++ sq ++ " is "
            ++ (support.reason.getD ""))
          activeAfter := active.erase requestId
          breakersAfter := breakers
          fireCalls := 0 }
      else
        let breakers' := insert commandType breakers
        match fire with
        | .success response =>
          { outcome := .ok (transformResponse rt response commandType
              { requestId := some requestId, startTime := some startTime,
                routing := some routingInfo.routing })
            activeAfter := active.erase requestId
            breakersAfter := breakers'
            fireCalls := 1 }
        | .failure errName errMessage =>
          if errName = "OpenCircuitError" || breakerOpened then
            { outcome := .ok (createCircuitBreakerFallback fbCfg commandType requestId
                startTime rt {})
              activeAfter := active.erase requestId
              breakersAfter := breakers'
              fireCalls := 1 }
          else
            { outcome := .thrown errMessage
              activeAfter := active.erase requestId
              breakersAfter := breakers'
              fireCalls := 1 }

/-! ## ConcurrentRequestManager (`src/services/concurrentRequestManager.js`)

JavaScript is single-threaded: concurrent `executeRequest` calls interleave
only at `await` points, so each synchronous block of the manager is one atomic
transition.  The admission block (capacity check + insertion), the `finally`
block of `executeImmediately` (removal + `processQueue`), a queue-entry
timeout, and `shutdown` are the four transitions; a trace is any sequence of
them.  `activeRequests` is a `Map` keyed by request id (modelled by its key
set) and `requestQueue` an array in FIFO order. -/

/-- Constructor configuration of `ConcurrentRequestManager` (resolved
defaults: 10, 50, 30000, queuing enabled). -/
structure CRMConfig where
  maxConcurrentRequests : Nat := 10
  queueSize : Nat := 50
  queueTimeout : Nat := 30000
  enableQueuing : Bool := true

/-- Mutable state of the manager. -/
structure CRMState where
  active : Finset String
  queue : List String

/-- The manager's state at construction. -/
def initialCRMState : CRMState := { active := ∅, queue := [] }

/-- Embeds `ConcurrentRequestManager.canExecuteImmediately`. -/
def canExecuteImmediately (cfg : CRMConfig) (s : CRMState) : Bool :=
  s.active.card < cfg.maxConcurrentRequests

/-- Embeds `ConcurrentRequestManager.canQueue`. -/
def canQueue (cfg : CRMConfig) (s : CRMState) : Bool :=
  s.queue.length < cfg.queueSize

/-- How an `executeRequest` call was admitted. -/
inductive EntryDecision where
  | executing
  | queued
  | rejected

/-- The synchronous admission block of `ConcurrentRequestManager.executeRequest`:
run immediately when a slot is free, else queue when queuing is enabled and the
queue has room, else reject with a capacity error. -/
def executeRequestEnter (cfg : CRMConfig) (s : CRMState) (requestId : String) :
    CRMState × EntryDecision :=
  if canExecuteImmediately cfg s then
    ({ s with active := insert requestId s.active }, .executing)
  else if cfg.enableQueuing && canQueue cfg s then
    ({ s with queue := s.queue ++ [requestId] }, .queued)
  else (s, .rejected)

/-- Embeds `ConcurrentRequestManager.processQueue`: dequeue FIFO into a freed slot. -/
def processQueue (cfg : CRMConfig) (s : CRMState) : CRMState :=
  match s.queue with
  | [] => s
  | requestId :: rest =>
    if canExecuteImmediately cfg s then
      { active := insert requestId s.active, queue := rest }
    else s

/-- The `finally` block of `ConcurrentRequestManager.executeImmediately`:
delete the active entry and process the queue.  It runs identically whether
the wrapped request resolved (`succeeded = true`) or threw
(`succeeded = false`) - JS `finally` semantics. -/
def executeImmediatelyFinish (cfg : CRMConfig) (s : CRMState) (requestId : String)
    (succeeded : Bool) : CRMState :=
  let _ := succeeded
  processQueue cfg { s with active := s.active.erase requestId }

/-- Embeds `ConcurrentRequestManager.removeFromQueue` (queue-entry timeout). -/
def removeFromQueue (s : CRMState) (requestId : String) : CRMState :=
  { s with queue := s.queue.erase requestId }

/-- Embeds `ConcurrentRequestManager.shutdown`: reject every queued entry and clear
all state. -/
def crmShutdown (_s : CRMState) : CRMState :=
  { active := ∅, queue := [] }

/-- Observable atomic transitions of the manager. -/
inductive CRMEvent where
  | enter (requestId : String)
  | finish (requestId : String) (succeeded : Bool)
  | queueTimeout (requestId : String)
  | shutdown

/-- One transition. -/
def crmStep (cfg : CRMConfig) (s : CRMState) : CRMEvent → CRMState
  | .enter requestId => (executeRequestEnter cfg s requestId).1
  | .finish requestId succeeded => executeImmediatelyFinish cfg s requestId succeeded
  | .queueTimeout requestId => removeFromQueue s requestId
  | .shutdown => crmShutdown s

/-- The state after an arbitrary interleaving of transitions from start-up. -/
def crmRun (cfg : CRMConfig) (events : List CRMEvent) : CRMState :=
  events.foldl (crmStep cfg) initialCRMState

/-- The concurrency invariant of the specification. -/
def crmInvariant (cfg : CRMConfig) (s : CRMState) : Prop :=
  s.active.card ≤ cfg.maxConcurrentRequests ∧ s.queue.length ≤ cfg.queueSize

/-! ### The router's own `activeRequests` set (`N8NRouter`)

`routeCommand`'s synchronous blocks touching `this.activeRequests` are the
entry block (capacity check + `add`) and the `finally` block (`delete`). -/

/-- Observable transitions of the router's `activeRequests` set. -/
inductive RouterEvent where
  | acquire (requestId : String)
  | release (requestId : String)

/-- One transition of the router's active set. -/
def routerStep (maxConcurrentRequests : Nat) (s : Finset String) :
    RouterEvent → Finset String
  | .acquire requestId =>
    if s.card ≥ maxConcurrentRequests then s else insert requestId s
  | .release requestId => s.erase requestId

/-- The router's active set after an arbitrary interleaving of calls. -/
def routerRun (maxConcurrentRequests : Nat) (events : List RouterEvent) : Finset String :=
  events.foldl (routerStep maxConcurrentRequests) ∅

/-! ## Retry condition (`src/services/requestHandler.js`, `initializeAxios`)

`axios-retry` drives the retry loop.  Its helper predicates
(`isNetworkOrIdempotentRequestError` and friends) are not part of this
repository; they are modelled here from the axios-retry semantics the handler
relies on: an error is retryable only when no response arrived or the response
status is 5xx, and a network error is one without a response (the
is-retry-allowed deny-list is over-approximated as allowing retry, which is
irrelevant to errors that do carry an HTTP response). -/

/-- The shape of an axios error as inspected by the retry condition. -/
structure AxiosError where
  /-- Models `error.response.status`; `none` when no response was received. -/
  responseStatus : Option Nat
  /-- Models `error.code`; `none` when absent. -/
  code : Option String
  /-- whether `error.config.method` is idempotent. -/
  idempotentMethod : Bool

/-- axios-retry `isRetryableError`. -/
def isRetryableError (e : AxiosError) : Bool :=
  (e.code != some "ECONNABORTED") &&
    (match e.responseStatus with
     | none => true
     | some st => 500 ≤ st && st ≤ 599)

/-- axios-retry `isNetworkError` (deny-list over-approximated). -/
def isNetworkError (e : AxiosError) : Bool :=
  e.responseStatus.isNone && e.code.isSome && (e.code != some "ECONNABORTED")

/-- axios-retry `isIdempotentRequestError`. -/
def isIdempotentRequestError (e : AxiosError) : Bool :=
  e.idempotentMethod && isRetryableError e

/-- axios-retry `isNetworkOrIdempotentRequestError`. -/
def isNetworkOrIdempotentRequestError (e : AxiosError) : Bool :=
  isNetworkError e || isIdempotentRequestError e

/-- The additional retryable network/timeout codes listed in the handler. -/
def retryableCodes : List String :=
  ["ECONNABORTED", "ENOTFOUND", "ETIMEDOUT", "ECONNRESET", "EHOSTUNREACH"]

/-- The `retryCondition` installed by `RequestHandler.initializeAxios`. -/
def retryCondition (e : AxiosError) : Bool :=
  if isNetworkOrIdempotentRequestError e then true
  else if (match e.responseStatus with | some st => decide (500 ≤ st) | none => false) then true
  else
    match e.code with
    | some c => decide (c ∈ retryableCodes)
    | none => false

/-- Result of one HTTP attempt. -/
inductive AttemptOutcome where
  | ok (response : HttpResponse)
  | err (e : AxiosError)

/-- Number of attempts the axios-retry loop performs: `outcome i` is the
result of attempt `i`; after a failing attempt the loop retries exactly when
`retryCondition` holds and retry budget remains. -/
def attemptsUsedAux (outcome : Nat → AttemptOutcome) : Nat → Nat → Nat
  | 0, i => i + 1
  | fuel + 1, i =>
    match outcome i with
    | .ok _ => i + 1
    | .err e => if retryCondition e then attemptsUsedAux outcome fuel (i + 1) else i + 1

/-- Total attempts for a configured retry count (`retries := retryAttempts`). -/
def attemptsUsed (maxRetries : Nat) (outcome : Nat → AttemptOutcome) : Nat :=
  attemptsUsedAux outcome maxRetries 0

/-- Constructor configuration of `RequestHandler` (resolved defaults). -/
structure RequestHandlerConfig where
  timeout : Nat := 30000
  retryAttempts : Nat := 3
  retryDelay : Nat := 1000

/-! ## Basic lemmas about the JS object model -/

theorem lookupField_setField_self (l : List (String × JsValue)) (k : String) (v : JsValue) :
    lookupField (setField l k v) k = some v := by
  induction l with
  | nil => simp [setField, lookupField]
  | cons p rest ih =>
    by_cases h : p.1 = k
    · simp [setField, lookupField, h]
    · simp [setField, lookupField, h, ih]

theorem lookupField_setField_ne (l : List (String × JsValue)) (k k' : String) (v : JsValue)
    (h : k' ≠ k) : lookupField (setField l k v) k' = lookupField l k' := by
  have hkk : k ≠ k' := Ne.symm h
  induction l with
  | nil => simp [setField, lookupField, hkk]
  | cons p rest ih =>
    by_cases hp : p.1 = k
    · subst hp
      simp [setField, lookupField, hkk]
    · simp only [setField, if_neg hp, lookupField]
      by_cases hp' : p.1 = k'
      · simp [hp']
      · simp [hp', ih]

theorem bool_not_and_self (b : Bool) : (!b && b) = false := by cases b <;> rfl

theorem truthy_obj (fields : List (String × JsValue)) : truthy (.obj fields) = true := rfl

theorem truthyOpt_some (v : JsValue) : truthyOpt (some v) = truthy v := rfl

/-! ## Invariant preservation for the concurrency manager -/

theorem crmStep_invariant (cfg : CRMConfig) (s : CRMState) (e : CRMEvent)
    (h : crmInvariant cfg s) : crmInvariant cfg (crmStep cfg s e) := by
  obtain ⟨ha, hq⟩ := h
  cases e with
  | enter rid =>
    simp only [crmStep, executeRequestEnter]
    split
    · next hcan =>
      have hlt : s.active.card < cfg.maxConcurrentRequests := by
        simpa [canExecuteImmediately] using hcan
      have hins := Finset.card_insert_le rid s.active
      exact ⟨by show (insert rid s.active).card ≤ _; omega, hq⟩
    · split
      · next hcq =>
        have hql : s.queue.length < cfg.queueSize := by
          simp [canQueue] at hcq
          exact hcq.2
        refine ⟨ha, ?_⟩
        show (s.queue ++ [rid]).length ≤ _
        simp only [List.length_append, List.length_cons, List.length_nil]
        omega
      · exact ⟨ha, hq⟩
  | finish rid succeeded =>
    simp only [crmStep, executeImmediatelyFinish, processQueue]
    have herase : (s.active.erase rid).card ≤ cfg.maxConcurrentRequests :=
      le_trans (Finset.card_erase_le) ha
    split
    · exact ⟨herase, hq⟩
    · next q rest hqe =>
      have hsq : s.queue = q :: rest := by simpa using hqe
      have hlen : s.queue.length = rest.length + 1 := by simp [hsq]
      split
      · next hcan =>
        have hlt : (s.active.erase rid).card < cfg.maxConcurrentRequests := by
          simpa [canExecuteImmediately] using hcan
        have hins := Finset.card_insert_le q (s.active.erase rid)
        refine ⟨?_, ?_⟩
        · show (insert q (s.active.erase rid)).card ≤ _
          omega
        · show rest.length ≤ _
          omega
      · exact ⟨herase, hq⟩
  | queueTimeout rid =>
    refine ⟨ha, ?_⟩
    simp only [crmStep, removeFromQueue]
    exact le_trans (List.Sublist.length_le (List.erase_sublist rid s.queue)) hq
  | shutdown => exact ⟨by simp [crmStep, crmShutdown], by simp [crmStep, crmShutdown]⟩

theorem crmFoldl_invariant (cfg : CRMConfig) (events : List CRMEvent) (s : CRMState)
    (h : crmInvariant cfg s) : crmInvariant cfg (events.foldl (crmStep cfg) s) := by
  induction events generalizing s with
  | nil => simpa using h
  | cons e rest ih => exact ih _ (crmStep_invariant cfg s e h)

theorem crmRun_invariant (cfg : CRMConfig) (events : List CRMEvent) :
    crmInvariant cfg (crmRun cfg events) :=
  crmFoldl_invariant cfg events initialCRMState
    ⟨by simp [initialCRMState], by simp [initialCRMState]⟩

theorem routerStep_card_le (maxConcurrentRequests : Nat) (s : Finset String)
    (e : RouterEvent) (h : s.card ≤ maxConcurrentRequests) :
    (routerStep maxConcurrentRequests s e).card ≤ maxConcurrentRequests := by
  cases e with
  | acquire rid =>
    simp only [routerStep]
    split
    · exact h
    · next hge =>
      have hlt : s.card < maxConcurrentRequests := by omega
      have hins := Finset.card_insert_le rid s
      omega
  | release rid => exact le_trans (Finset.card_erase_le) h

theorem routerFoldl_card_le (maxConcurrentRequests : Nat) (events : List RouterEvent)
    (s : Finset String) (h : s.card ≤ maxConcurrentRequests) :
    (events.foldl (routerStep maxConcurrentRequests) s).card ≤ maxConcurrentRequests := by
  induction events generalizing s with
  | nil => simpa using h
  | cons e rest ih => exact ih _ (routerStep_card_le maxConcurrentRequests s e h)

theorem routerRun_card_le (maxConcurrentRequests : Nat) (events : List RouterEvent) :
    (routerRun maxConcurrentRequests events).card ≤ maxConcurrentRequests :=
  routerFoldl_card_le maxConcurrentRequests events ∅ (by simp)

theorem finish_releases (cfg : CRMConfig) (s : CRMState) (rid : String) (succeeded : Bool)
    (hq : rid ∉ s.queue) :
    rid ∉ (executeImmediatelyFinish cfg s rid succeeded).active := by
  obtain ⟨act, qu⟩ := s
  simp only [executeImmediatelyFinish, processQueue]
  cases qu with
  | nil => exact Finset.not_mem_erase rid act
  | cons q rest =>
    simp only []
    split
    · simp only [Finset.mem_insert]
      rintro (h | h)
      · exact hq (h ▸ List.mem_cons_self q rest)
      · exact absurd h (Finset.not_mem_erase rid act)
    · exact Finset.not_mem_erase rid act

/-! ## Lemmas about `routeCommand` -/

/-- For a fresh request id, the `finally` block hands the router's
`activeRequests` set back exactly as the call found it, on every path. -/
theorem routeCommand_activeAfter (maxR : Nat) (table : List (String × JsValue))
    (fbCfg : FallbackConfig) (rt : JsRuntime) (breakers : Finset String) (opened : Bool)
    (fire : FireResult) (activeBefore : Finset String) (requestId commandType : String)
    (options : RouteOptions) (routeRid : String) (startTime : Nat)
    (hfresh : requestId ∉ activeBefore) :
    (routeCommand maxR table fbCfg rt breakers opened fire activeBefore requestId
      commandType options routeRid startTime).activeAfter = activeBefore := by
  have h1 : activeBefore.erase requestId = activeBefore :=
    Finset.erase_eq_of_not_mem hfresh
  have h2 : (insert requestId activeBefore).erase requestId = activeBefore :=
    Finset.erase_insert hfresh
  by_cases hcap : activeBefore.card ≥ maxR
  · simp only [routeCommand, if_pos hcap]
    exact h1
  · cases hem : emRouteCommand table commandType options routeRid rt.now rt.nowIso with
    | none =>
      simp only [routeCommand, if_neg hcap, hem]
      exact h2
    | some info =>
      cases hsup : (isCommandSupported table commandType).supported with
      | false =>
        simp only [routeCommand, if_neg hcap, hem, hsup]
        exact h2
      | true =>
        cases fire with
        | success response =>
          simp only [routeCommand, if_neg hcap, hem, hsup]
          exact h2
        | failure errName errMessage =>
          cases hopen : (decide (errName = "OpenCircuitError") || opened) with
          | true =>
            simp only [routeCommand, if_neg hcap, hem, hsup, hopen]
            exact h2
          | false =>
            simp only [routeCommand, if_neg hcap, hem, hsup, hopen]
            exact h2

/-! ## C1 -/

/-- Statement of the concurrency-safety claim: every interleaving of atomic
manager transitions keeps the active and queued counts within
`maxConcurrentRequests` and `queueSize`; every interleaving of router
admissions keeps the router's `activeRequests` within its bound; the
manager's finally-block removes the finished request's active-slot entry on
the success path and on the error path alike; and a `routeCommand` call
always hands the router's active set back as it found it. -/
def C1Statement (cfg : CRMConfig) (events : List CRMEvent) (maxR : Nat)
    (revents : List RouterEvent) (s : CRMState) (rid : String) (succeeded : Bool) : Prop :=
  crmInvariant cfg (crmRun cfg events)
  ∧ (routerRun maxR revents).card ≤ maxR
  ∧ rid ∉ (executeImmediatelyFinish cfg s rid succeeded).active
  ∧ ∀ (maxC : Nat) (table : List (String × JsValue)) (fbCfg : FallbackConfig)
      (rt : JsRuntime) (breakers : Finset String) (opened : Bool) (fire : FireResult)
      (activeBefore : Finset String) (reqId ct routeRid : String) (options : RouteOptions)
      (startTime : Nat), reqId ∉ activeBefore →
      (routeCommand maxC table fbCfg rt breakers opened fire activeBefore reqId ct
        options routeRid startTime).activeAfter = activeBefore

/-- C1: for every sequence of calls to the concurrency layer
(`ConcurrentRequestManager.executeRequest` and `N8NRouter.routeCommand`), the
number of active in-flight requests never exceeds `maxConcurrentRequests` and
the number of queued requests never exceeds `queueSize`, at every observable
instant; and every admitted request's active-slot entry is released when the
call finishes, on both the success and every error path. -/
theorem c1_concurrency_bounds_and_release (cfg : CRMConfig) (events : List CRMEvent)
    (maxR : Nat) (revents : List RouterEvent) (s : CRMState) (rid : String)
    (succeeded : Bool) (hq : rid ∉ s.queue) :
    C1Statement cfg events maxR revents s rid succeeded :=
  ⟨crmRun_invariant cfg events, routerRun_card_le maxR revents,
   finish_releases cfg s rid succeeded hq,
   fun _ _ _ _ _ _ _ _ _ _ _ _ _ hfresh =>
     routeCommand_activeAfter _ _ _ _ _ _ _ _ _ _ _ _ _ hfresh⟩

/-- Witness for C1 at a concrete trace and state. -/
theorem c1_concurrency_bounds_and_release_witness :
    ("req1" ∉ ({ active := {"req2"}, queue := ["req3"] } : CRMState).queue)
    ∧ C1Statement {} [.enter "req1", .finish "req1" true, .enter "req2", .shutdown]
        3 [.acquire "req1", .acquire "req2", .release "req1"]
        { active := {"req2"}, queue := ["req3"] } "req1" true :=
  ⟨by decide,
   c1_concurrency_bounds_and_release {} [.enter "req1", .finish "req1" true,
     .enter "req2", .shutdown] 3 [.acquire "req1", .acquire "req2", .release "req1"]
     { active := {"req2"}, queue := ["req3"] } "req1" true (by decide)⟩

/-! ## Route-resolution lemmas -/

theorem getEndpointConfig_eq_none_of_not_found (table : List (String × JsValue))
    (ct : String) (hlook : lookupField table ct = none) :
    getEndpointConfig table ct = none := by
  unfold getEndpointConfig getRoute
  by_cases hct : ct = ""
  · rw [if_pos hct]
  · rw [if_neg hct, hlook]

theorem getEndpointConfig_eq_none_of_disabled (table : List (String × JsValue))
    (ct : String) (config : JsValue) (hlook : lookupField table ct = some config)
    (hen : truthyOpt (jsGet config "enabled") = false) :
    getEndpointConfig table ct = none := by
  unfold getEndpointConfig getRoute
  by_cases hct : ct = ""
  · rw [if_pos hct]
  · simp [hct, hlook, hen]

theorem getEndpointConfig_eq_some (table : List (String × JsValue)) (ct : String)
    (config : JsValue) (hct : ct ≠ "") (hlook : lookupField table ct = some config)
    (hen : truthyOpt (jsGet config "enabled") = true) :
    getEndpointConfig table ct = some config := by
  unfold getEndpointConfig getRoute
  simp [hct, hlook, hen]

theorem emRouteCommand_eq_none (table : List (String × JsValue)) (ct : String)
    (options : RouteOptions) (routeRid : String) (now : Nat) (nowIso : String)
    (h : getEndpointConfig table ct = none) :
    emRouteCommand table ct options routeRid now nowIso = none := by
  unfold emRouteCommand
  rw [h]

theorem emRouteCommand_isSome (table : List (String × JsValue)) (ct : String)
    (config : JsValue) (options : RouteOptions) (routeRid : String) (now : Nat)
    (nowIso : String) (hct : ct ≠ "") (hlook : lookupField table ct = some config)
    (hen : truthyOpt (jsGet config "enabled") = true) :
    ∃ info, emRouteCommand table ct options routeRid now nowIso = some info := by
  unfold emRouteCommand
  rw [getEndpointConfig_eq_some table ct config hct hlook hen]
  exact ⟨_, rfl⟩

theorem isCommandSupported_of_enabled (table : List (String × JsValue)) (ct : String)
    (config : JsValue) (hlook : lookupField table ct = some config)
    (hen : truthyOpt (jsGet config "enabled") = true) :
    isCommandSupported table ct = { supported := true } := by
  unfold isCommandSupported getRoute
  simp [hlook, hen]

theorem isCommandSupported_of_not_found (table : List (String × JsValue)) (ct : String)
    (hlook : lookupField table ct = none) :
    isCommandSupported table ct = { supported := false, reason := some "not_configured" } := by
  unfold isCommandSupported getRoute
  rw [hlook]

theorem isCommandSupported_of_disabled (table : List (String × JsValue)) (ct : String)
    (config : JsValue) (hlook : lookupField table ct = some config)
    (hen : truthyOpt (jsGet config "enabled") = false) :
    isCommandSupported table ct = { supported := false, reason := some "disabled" } := by
  unfold isCommandSupported getRoute
  simp [hlook, hen]

/-- The full effect of `routeCommand` on a resolution rejection. -/
theorem routeCommand_resolution_rejected (maxR : Nat) (table : List (String × JsValue))
    (fbCfg : FallbackConfig) (rt : JsRuntime) (breakers : Finset String) (opened : Bool)
    (fire : FireResult) (activeBefore : Finset String) (reqId ct routeRid : String)
    (options : RouteOptions) (startTime : Nat)
    (hcap : activeBefore.card < maxR) (hres : getEndpointConfig table ct = none) :
    routeCommand maxR table fbCfg rt breakers opened fire activeBefore reqId ct options
      routeRid startTime
    = { outcome := .thrown ("No endpoint configured for command type: " ++ ct)
        activeAfter := (insert reqId activeBefore).erase reqId
        breakersAfter := breakers
        fireCalls := 0 } := by
  have hem := emRouteCommand_eq_none table ct options routeRid rt.now rt.nowIso hres
  unfold routeCommand
  rw [if_neg (by omega : ¬ activeBefore.card ≥ maxR), hem]

/-! ## Concrete fixtures used by witnesses and counterexamples -/

/-- A concrete runtime: `JSON.parse` always fails, fixed clock. -/
def rtEx : JsRuntime :=
  { jsonParse := fun _ => none
    parseInt10 := fun _ => 0
    byteLengthStr := fun s => s.utf8ByteSize
    byteLengthJson := fun _ => 0
    nowIso := "2026-01-01T00:00:00.000Z"
    now := 1000 }

/-- A concrete enabled endpoint configuration. -/
def enabledScrapeConfig : JsValue :=
  .obj [("url", .str "https://n8n.example.com/webhook/scrape"), ("method", .str "POST"),
        ("enabled", .bool true), ("priority", .num 1),
        ("environment", .str "development")]

/-- A routing table with one enabled `scrape` route. -/
def exampleTable : List (String × JsValue) := [("scrape", enabledScrapeConfig)]

/-- A concrete disabled endpoint configuration. -/
def disabledScrapeConfig : JsValue :=
  .obj [("url", .str "https://n8n.example.com/webhook/scrape"), ("enabled", .bool false)]

/-- A routing table whose only `scrape` route is disabled. -/
def disabledTable : List (String × JsValue) := [("scrape", disabledScrapeConfig)]

/-! ## C2 -/

/-- Statement of the circuit-open fallback claim for a `routeCommand` call
whose breaker rejects: the caller receives a resolved structured fallback
result, not a thrown exception. -/
def C2Statement (maxR : Nat) (table : List (String × JsValue)) (fbCfg : FallbackConfig)
    (rt : JsRuntime) (breakers : Finset String) (opened : Bool)
    (errName errMessage : String) (activeBefore : Finset String)
    (reqId ct routeRid : String) (options : RouteOptions) (startTime : Nat) : Prop :=
  ∃ r : RoutingResult,
    (routeCommand maxR table fbCfg rt breakers opened (.failure errName errMessage)
      activeBefore reqId ct options routeRid startTime).outcome = .ok r
    ∧ r.success = false
    ∧ r.status = 503
    ∧ r.fallback = true
    ∧ ∃ e, r.error = some e ∧ e.type = "circuit_breaker_open"

/-- C2: for every call to `N8NRouter.routeCommand` whose circuit breaker is
open, the caller receives a structured fallback result (`success:false`,
status 503, `error.type` circuit_breaker_open, `fallback:true`) rather than a
thrown exception. -/
theorem c2_circuit_open_fallback (maxR : Nat) (table : List (String × JsValue))
    (fbCfg : FallbackConfig) (rt : JsRuntime) (breakers : Finset String) (opened : Bool)
    (errName errMessage : String) (activeBefore : Finset String)
    (reqId ct routeRid : String) (options : RouteOptions) (startTime : Nat)
    (config : JsValue) (hcap : activeBefore.card < maxR) (hct : ct ≠ "")
    (hlook : lookupField table ct = some config)
    (hen : truthyOpt (jsGet config "enabled") = true)
    (hopen : errName = "OpenCircuitError" ∨ opened = true) :
    C2Statement maxR table fbCfg rt breakers opened errName errMessage activeBefore
      reqId ct routeRid options startTime := by
  obtain ⟨info, hinfo⟩ :=
    emRouteCommand_isSome table ct config options routeRid rt.now rt.nowIso hct hlook hen
  have hsup := isCommandSupported_of_enabled table ct config hlook hen
  have hcond : (decide (errName = "OpenCircuitError") || opened) = true := by
    rcases hopen with h | h
    · simp [h]
    · simp [h]
  have hroute : routeCommand maxR table fbCfg rt breakers opened
      (.failure errName errMessage) activeBefore reqId ct options routeRid startTime
      = { outcome := .ok (createCircuitBreakerFallback fbCfg ct reqId startTime rt {})
          activeAfter := (insert reqId activeBefore).erase reqId
          breakersAfter := insert ct breakers
          fireCalls := 1 } := by
    unfold routeCommand
    rw [if_neg (by omega : ¬ activeBefore.card ≥ maxR), hinfo, hsup]
    simp [hcond]
  exact ⟨createCircuitBreakerFallback fbCfg ct reqId startTime rt {},
    by rw [hroute], rfl, rfl, rfl, ⟨_, rfl, rfl⟩⟩

/-- Witness for C2 at a concrete open-circuit rejection. -/
theorem c2_circuit_open_fallback_witness :
    C2Statement 10 exampleTable {} rtEx ∅ false "OpenCircuitError" "Breaker is open"
      ∅ "req1" "scrape" "route1" {} 1000 :=
  c2_circuit_open_fallback 10 exampleTable {} rtEx ∅ false "OpenCircuitError"
    "Breaker is open" ∅ "req1" "scrape" "route1" {} 1000 enabledScrapeConfig
    (by decide) (by decide) rfl rfl (Or.inl rfl)

/-! ## C3 -/

/-- Counterexample to C3 as stated: with concurrency capacity exhausted,
`routeCommand` throws `Maximum concurrent requests exceeded`; the caller does
not receive a structured fallback `RoutingResult`. -/
theorem c3_counterexample :
    (routeCommand 1 exampleTable {} rtEx ∅ false (.failure "E" "boom") {"other"}
      "req1" "scrape" {} "route1" 1000).outcome
      = .thrown "Maximum concurrent requests exceeded"
    ∧ ∀ r : RoutingResult,
        (routeCommand 1 exampleTable {} rtEx ∅ false (.failure "E" "boom") {"other"}
          "req1" "scrape" {} "route1" 1000).outcome ≠ .ok r := by
  refine ⟨rfl, fun r hr => ?_⟩
  rw [(rfl : (routeCommand 1 exampleTable {} rtEx ∅ false (.failure "E" "boom") {"other"}
      "req1" "scrape" {} "route1" 1000).outcome
      = .thrown "Maximum concurrent requests exceeded")] at hr
  exact RouteOutcome.noConfusion hr

/-- Statement of the amended capacity claim: `routeCommand` throws on
capacity exhaustion, with zero HTTP calls; the structured rate-limit fallback
builder (`fallback:true`, status 429, `error.type` rate_limit_exceeded)
exists but is not invoked on this path. -/
def C3Statement (maxR : Nat) (table : List (String × JsValue)) (fbCfg : FallbackConfig)
    (rt : JsRuntime) (breakers : Finset String) (opened : Bool) (fire : FireResult)
    (activeBefore : Finset String) (reqId ct routeRid : String) (options : RouteOptions)
    (startTime : Nat) : Prop :=
  (routeCommand maxR table fbCfg rt breakers opened fire activeBefore reqId ct options
    routeRid startTime).outcome = .thrown "Maximum concurrent requests exceeded"
  ∧ (routeCommand maxR table fbCfg rt breakers opened fire activeBefore reqId ct options
      routeRid startTime).fireCalls = 0
  ∧ (createRateLimitFallback ct reqId startTime rt {}).fallback = true
  ∧ (createRateLimitFallback ct reqId startTime rt {}).status = 429
  ∧ ∃ e, (createRateLimitFallback ct reqId startTime rt {}).error = some e
      ∧ e.type = "rate_limit_exceeded"

/-- C3 (amended): a `routeCommand` call made while concurrency capacity is
exhausted throws `Maximum concurrent requests exceeded` without any HTTP
call; `FallbackResponseManager.createRateLimitFallback` builds the structured
429 fallback envelope but `routeCommand` never invokes it. -/
theorem c3_capacity_exhaustion_throws (maxR : Nat) (table : List (String × JsValue))
    (fbCfg : FallbackConfig) (rt : JsRuntime) (breakers : Finset String) (opened : Bool)
    (fire : FireResult) (activeBefore : Finset String) (reqId ct routeRid : String)
    (options : RouteOptions) (startTime : Nat)
    (hcap : activeBefore.card ≥ maxR) :
    C3Statement maxR table fbCfg rt breakers opened fire activeBefore reqId ct routeRid
      options startTime := by
  have hroute : routeCommand maxR table fbCfg rt breakers opened fire activeBefore reqId
      ct options routeRid startTime
      = { outcome := .thrown "Maximum concurrent requests exceeded"
          activeAfter := activeBefore.erase reqId
          breakersAfter := breakers
          fireCalls := 0 } := by
    unfold routeCommand
    rw [if_pos hcap]
  exact ⟨by rw [hroute], by rw [hroute], rfl, rfl, ⟨_, rfl, rfl⟩⟩

/-- Witness for the amended C3 at a concrete saturated router. -/
theorem c3_capacity_exhaustion_throws_witness :
    ({"other"} : Finset String).card ≥ 1
    ∧ C3Statement 1 exampleTable {} rtEx ∅ false (.failure "E" "boom") {"other"}
        "req1" "scrape" "route1" {} 1000 :=
  ⟨by decide,
   c3_capacity_exhaustion_throws 1 exampleTable {} rtEx ∅ false (.failure "E" "boom")
     {"other"} "req1" "scrape" "route1" {} 1000 (by decide)⟩

/-! ## C4 -/

/-- Statement of the unknown-command claim: the call is rejected with the
not-configured error, the routing layer classifies the command as
`not_configured`, and the wrapped request function is never invoked. -/
def C4Statement (maxR : Nat) (table : List (String × JsValue)) (fbCfg : FallbackConfig)
    (rt : JsRuntime) (breakers : Finset String) (opened : Bool) (fire : FireResult)
    (activeBefore : Finset String) (reqId ct routeRid : String) (options : RouteOptions)
    (startTime : Nat) : Prop :=
  (routeCommand maxR table fbCfg rt breakers opened fire activeBefore reqId ct options
    routeRid startTime).outcome
    = .thrown ("No endpoint configured for command type: " ++ ct)
  ∧ (routeCommand maxR table fbCfg rt breakers opened fire activeBefore reqId ct options
      routeRid startTime).fireCalls = 0
  ∧ isCommandSupported table ct = { supported := false, reason := some "not_configured" }

/-- C4: for every command type not present in the routing table,
`routeCommand` returns the not-configured error and performs zero HTTP calls
(the wrapped request function is never invoked). -/
theorem c4_unknown_command_rejected (maxR : Nat) (table : List (String × JsValue))
    (fbCfg : FallbackConfig) (rt : JsRuntime) (breakers : Finset String) (opened : Bool)
    (fire : FireResult) (activeBefore : Finset String) (reqId ct routeRid : String)
    (options : RouteOptions) (startTime : Nat)
    (hcap : activeBefore.card < maxR) (hlook : lookupField table ct = none) :
    C4Statement maxR table fbCfg rt breakers opened fire activeBefore reqId ct routeRid
      options startTime := by
  have hroute := routeCommand_resolution_rejected maxR table fbCfg rt breakers opened
    fire activeBefore reqId ct routeRid options startTime hcap
    (getEndpointConfig_eq_none_of_not_found table ct hlook)
  exact ⟨by rw [hroute], by rw [hroute], isCommandSupported_of_not_found table ct hlook⟩

/-- Witness for C4 at a concrete unknown command. -/
theorem c4_unknown_command_rejected_witness :
    lookupField exampleTable "nonexistent" = none
    ∧ C4Statement 10 exampleTable {} rtEx ∅ false (.failure "E" "boom") ∅
        "req1" "nonexistent" "route1" {} 1000 :=
  ⟨rfl,
   c4_unknown_command_rejected 10 exampleTable {} rtEx ∅ false (.failure "E" "boom")
     ∅ "req1" "nonexistent" "route1" {} 1000 (by decide) rfl⟩

/-! ## C5 -/

/-- Counterexample to C5 as stated: for a route present but disabled, the
error `routeCommand` surfaces is the generic `No endpoint configured` one
(route resolution already returned null), not an error carrying the reason
`disabled`. -/
theorem c5_counterexample :
    (routeCommand 10 disabledTable {} rtEx ∅ false (.failure "E" "boom") ∅ "req1"
      "scrape" {} "route1" 1000).outcome
      = .thrown ("No endpoint configured for command type: " ++ "scrape")
    ∧ ("No endpoint configured for command type: " ++ "scrape")
      ≠ ("Command " ++ sq ++ "scrape" ++ sq ++ " is disabled") := by
  refine ⟨rfl, ?_⟩
  decide

/-- Statement of the amended disabled-command claim: the call is rejected
with the generic not-configured message and zero HTTP calls, while the
routing-table classifier reports reason `disabled` for the same command. -/
def C5Statement (maxR : Nat) (table : List (String × JsValue)) (fbCfg : FallbackConfig)
    (rt : JsRuntime) (breakers : Finset String) (opened : Bool) (fire : FireResult)
    (activeBefore : Finset String) (reqId ct routeRid : String) (options : RouteOptions)
    (startTime : Nat) : Prop :=
  (routeCommand maxR table fbCfg rt breakers opened fire activeBefore reqId ct options
    routeRid startTime).outcome
    = .thrown ("No endpoint configured for command type: " ++ ct)
  ∧ (routeCommand maxR table fbCfg rt breakers opened fire activeBefore reqId ct options
      routeRid startTime).fireCalls = 0
  ∧ isCommandSupported table ct = { supported := false, reason := some "disabled" }

/-- C5 (amended): for every command type present in the routing table with a
falsy `enabled` flag, `routeCommand` performs zero HTTP calls and throws the
same `No endpoint configured` error as for an unknown command (route
resolution filters disabled routes to null before the support check), while
`RoutingTableBuilder.isCommandSupported` classifies the command as
`disabled`. -/
theorem c5_disabled_command_rejected (maxR : Nat) (table : List (String × JsValue))
    (fbCfg : FallbackConfig) (rt : JsRuntime) (breakers : Finset String) (opened : Bool)
    (fire : FireResult) (activeBefore : Finset String) (reqId ct routeRid : String)
    (options : RouteOptions) (startTime : Nat) (config : JsValue)
    (hcap : activeBefore.card < maxR) (hlook : lookupField table ct = some config)
    (hen : truthyOpt (jsGet config "enabled") = false) :
    C5Statement maxR table fbCfg rt breakers opened fire activeBefore reqId ct routeRid
      options startTime := by
  have hroute := routeCommand_resolution_rejected maxR table fbCfg rt breakers opened
    fire activeBefore reqId ct routeRid options startTime hcap
    (getEndpointConfig_eq_none_of_disabled table ct config hlook hen)
  exact ⟨by rw [hroute], by rw [hroute],
    isCommandSupported_of_disabled table ct config hlook hen⟩

/-- Witness for the amended C5 at the concrete disabled route. -/
theorem c5_disabled_command_rejected_witness :
    lookupField disabledTable "scrape" = some disabledScrapeConfig
    ∧ C5Statement 10 disabledTable {} rtEx ∅ false (.failure "E" "boom") ∅
        "req1" "scrape" "route1" {} 1000 :=
  ⟨rfl,
   c5_disabled_command_rejected 10 disabledTable {} rtEx ∅ false (.failure "E" "boom")
     ∅ "req1" "scrape" "route1" {} 1000 disabledScrapeConfig (by decide) rfl rfl⟩

/-! ## C6 -/

/-- Statement of the frame claim for rejections at route resolution: the
call throws, the router's active set and the set of circuit breakers are
unchanged after the call, and `circuitBreaker.fire` is never invoked. -/
def C6Statement (maxR : Nat) (table : List (String × JsValue)) (fbCfg : FallbackConfig)
    (rt : JsRuntime) (breakers : Finset String) (opened : Bool) (fire : FireResult)
    (activeBefore : Finset String) (reqId ct routeRid : String) (options : RouteOptions)
    (startTime : Nat) : Prop :=
  (∃ msg, (routeCommand maxR table fbCfg rt breakers opened fire activeBefore reqId ct
    options routeRid startTime).outcome = .thrown msg)
  ∧ (routeCommand maxR table fbCfg rt breakers opened fire activeBefore reqId ct options
      routeRid startTime).activeAfter = activeBefore
  ∧ (routeCommand maxR table fbCfg rt breakers opened fire activeBefore reqId ct options
      routeRid startTime).breakersAfter = breakers
  ∧ (routeCommand maxR table fbCfg rt breakers opened fire activeBefore reqId ct options
      routeRid startTime).fireCalls = 0

/-- C6: every `routeCommand` call rejected at route resolution (command
unknown or disabled) throws while leaving the concurrency limiter state and
the per-endpoint circuit breaker state unchanged, with no breaker
execution. -/
theorem c6_resolution_rejection_frame (maxR : Nat) (table : List (String × JsValue))
    (fbCfg : FallbackConfig) (rt : JsRuntime) (breakers : Finset String) (opened : Bool)
    (fire : FireResult) (activeBefore : Finset String) (reqId ct routeRid : String)
    (options : RouteOptions) (startTime : Nat)
    (hcap : activeBefore.card < maxR) (hfresh : reqId ∉ activeBefore)
    (hres : getEndpointConfig table ct = none) :
    C6Statement maxR table fbCfg rt breakers opened fire activeBefore reqId ct routeRid
      options startTime := by
  have hroute := routeCommand_resolution_rejected maxR table fbCfg rt breakers opened
    fire activeBefore reqId ct routeRid options startTime hcap hres
  refine ⟨⟨"No endpoint configured for command type: " ++ ct, by rw [hroute]⟩,
    ?_, by rw [hroute], by rw [hroute]⟩
  rw [hroute]
  exact Finset.erase_insert hfresh

/-- Witness for C6 at a concrete unknown command. -/
theorem c6_resolution_rejection_frame_witness :
    getEndpointConfig exampleTable "nonexistent" = none
    ∧ C6Statement 10 exampleTable {} rtEx {"scrape"} false (.failure "E" "boom") ∅
        "req1" "nonexistent" "route1" {} 1000 :=
  ⟨rfl,
   c6_resolution_rejection_frame 10 exampleTable {} rtEx {"scrape"} false
     (.failure "E" "boom") ∅ "req1" "nonexistent" "route1" {} 1000
     (by decide) (by decide) rfl⟩

/-! ## C7 -/

theorem retryCondition_of_4xx (e : AxiosError) (st : Nat)
    (h2 : e.responseStatus = some st) (h3 : 400 ≤ st) (h4 : st ≤ 499)
    (h5 : ∀ c, e.code = some c → c ∉ retryableCodes) :
    retryCondition e = false := by
  have h500 : ¬ (500 ≤ st) := by omega
  have hr : isRetryableError e = false := by
    unfold isRetryableError
    rw [h2]
    simp [h500]
  have hn : isNetworkError e = false := by
    unfold isNetworkError
    rw [h2]
    rfl
  have hni : isNetworkOrIdempotentRequestError e = false := by
    unfold isNetworkOrIdempotentRequestError isIdempotentRequestError
    rw [hn, hr]
    simp
  unfold retryCondition
  rw [hni, h2]
  cases hc : e.code with
  | none => simp [h500]
  | some c => simp [h500, h5 c hc]

theorem retryCondition_of_503 (e : AxiosError) (h : e.responseStatus = some 503) :
    retryCondition e = true := by
  have h2nd : (match e.responseStatus with
      | some st => decide (500 ≤ st)
      | none => false) = true := by
    rw [h]
    rfl
  unfold retryCondition
  cases hni : isNetworkOrIdempotentRequestError e with
  | true => simp [hni]
  | false => simp [hni, h2nd]

theorem attemptsUsedAux_le (outcome : Nat → AttemptOutcome) (fuel i : Nat) :
    attemptsUsedAux outcome fuel i ≤ i + fuel + 1 := by
  induction fuel generalizing i with
  | zero => simp [attemptsUsedAux]
  | succ fuel ih =>
    unfold attemptsUsedAux
    cases houtcome : outcome i with
    | ok response =>
      show i + 1 ≤ i + (fuel + 1) + 1
      omega
    | err e =>
      show (if retryCondition e = true then attemptsUsedAux outcome fuel (i + 1) else i + 1)
          ≤ i + (fuel + 1) + 1
      by_cases hrc : retryCondition e = true
      · rw [if_pos hrc]
        have := ih (i + 1)
        omega
      · rw [if_neg hrc]
        omega

theorem attemptsUsed_le (maxRetries : Nat) (outcome : Nat → AttemptOutcome) :
    attemptsUsed maxRetries outcome ≤ 1 + maxRetries := by
  have := attemptsUsedAux_le outcome maxRetries 0
  unfold attemptsUsed
  omega

theorem attemptsUsed_eq_one_of_no_retry (maxRetries : Nat) (outcome : Nat → AttemptOutcome)
    (e : AxiosError) (h1 : outcome 0 = .err e) (hrc : retryCondition e = false) :
    attemptsUsed maxRetries outcome = 1 := by
  unfold attemptsUsed
  cases maxRetries with
  | zero => rfl
  | succ m =>
    unfold attemptsUsedAux
    simp [h1, hrc]

/-- Statement of the retry-discipline claim for the executor's configured
retry count `cfg.retryAttempts`: a first attempt failing with the given 4xx
error is never retried (exactly one attempt); any run makes at most
`1 + retryAttempts` attempts; and a failure carrying HTTP status 503
satisfies the retry condition. -/
def C7Statement (cfg : RequestHandlerConfig) (outcome : Nat → AttemptOutcome) : Prop :=
  attemptsUsed cfg.retryAttempts outcome = 1
  ∧ (∀ outcome2 : Nat → AttemptOutcome,
      attemptsUsed cfg.retryAttempts outcome2 ≤ 1 + cfg.retryAttempts)
  ∧ (∀ e2 : AxiosError, e2.responseStatus = some 503 → retryCondition e2 = true)

/-- C7: a request failing with an HTTP status in 400-499 is attempted exactly
once (no retries), and a request failing with HTTP status 503 is attempted at
most `1 + maxRetries` times, `maxRetries` being the executor's configured
retry count. -/
theorem c7_retry_discipline (cfg : RequestHandlerConfig)
    (outcome : Nat → AttemptOutcome) (e : AxiosError) (st : Nat)
    (h1 : outcome 0 = .err e) (h2 : e.responseStatus = some st)
    (h3 : 400 ≤ st) (h4 : st ≤ 499)
    (h5 : ∀ c, e.code = some c → c ∉ retryableCodes) :
    C7Statement cfg outcome :=
  ⟨attemptsUsed_eq_one_of_no_retry cfg.retryAttempts outcome e h1
      (retryCondition_of_4xx e st h2 h3 h4 h5),
   fun outcome2 => attemptsUsed_le cfg.retryAttempts outcome2,
   fun e2 h503 => retryCondition_of_503 e2 h503⟩

/-- A concrete axios error for a 404 response. -/
def err404 : AxiosError :=
  { responseStatus := some 404, code := some "ERR_BAD_REQUEST", idempotentMethod := false }

/-- Witness for C7 at a stream of 404 failures under the default retry
configuration. -/
theorem c7_retry_discipline_witness :
    (fun _ : Nat => AttemptOutcome.err err404) 0 = .err err404
    ∧ C7Statement {} (fun _ => .err err404) :=
  ⟨rfl,
   c7_retry_discipline {} (fun _ => .err err404) err404 404 rfl rfl (by decide) (by decide)
     (by
       intro c hc
       have : some "ERR_BAD_REQUEST" = some c := hc
       cases this
       decide)⟩

/-! ## Normalization lemmas -/

/-- Keys the normalization pipeline may write (the enrichment surface across
all command-specific normalizers). -/
def enrichedKeys : List String :=
  ["id", "timestamp", "content", "metadata", "stats", "result", "status", "processingInfo"]

theorem lookupField_normalizeIdStep_ne (data : JsValue) (l : List (String × JsValue))
    (k : String) (h : k ≠ "id") :
    lookupField (normalizeIdStep data l) k = lookupField l k := by
  unfold normalizeIdStep
  split
  · exact lookupField_setField_ne l "id" k _ h
  · rfl

theorem lookupField_normalizeTimestampStep_ne (nowIso : String)
    (l : List (String × JsValue)) (k : String) (h : k ≠ "timestamp") :
    lookupField (normalizeTimestampStep nowIso l) k = lookupField l k := by
  unfold normalizeTimestampStep
  split
  · exact lookupField_setField_ne l "timestamp" k _ h
  · rfl

theorem lookupField_normalizeScrape_ne (data : List (String × JsValue)) (k : String)
    (h1 : k ≠ "content") (h2 : k ≠ "metadata") (h3 : k ≠ "stats") :
    lookupField (normalizeScrapeResponse data) k = lookupField data k := by
  simp only [normalizeScrapeResponse]
  rw [lookupField_setField_ne _ "stats" k _ h3, lookupField_setField_ne _ "metadata" k _ h2,
    lookupField_setField_ne _ "content" k _ h1]

theorem lookupField_normalizeProcess_ne (data : List (String × JsValue)) (k : String)
    (h1 : k ≠ "result") (h2 : k ≠ "status") (h3 : k ≠ "processingInfo") :
    lookupField (normalizeProcessResponse data) k = lookupField data k := by
  simp only [normalizeProcessResponse]
  rw [lookupField_setField_ne _ "processingInfo" k _ h3,
    lookupField_setField_ne _ "status" k _ h2, lookupField_setField_ne _ "result" k _ h1]

/-- Outside the enrichment keys, the normalizer preserves every field of the
incoming object, for every command type. -/
theorem lookupField_normalizeResponseObject_ne (o : List (String × JsValue))
    (ct nowIso k : String) (hk : k ∉ enrichedKeys) :
    jsGet (normalizeResponseObject (.obj o) ct nowIso) k = lookupField o k := by
  simp only [enrichedKeys, List.mem_cons, List.not_mem_nil, or_false, not_or] at hk
  obtain ⟨hid, hts, hcont, hmeta, hstats, hres, hstat, hpi⟩ := hk
  have hbase : lookupField
      (normalizeTimestampStep nowIso (normalizeIdStep (.obj o) o)) k = lookupField o k := by
    rw [lookupField_normalizeTimestampStep_ne _ _ _ hts,
      lookupField_normalizeIdStep_ne _ _ _ hid]
  unfold normalizeResponseObject
  simp only [spreadFields]
  split
  · simp only [jsGet]
    rw [lookupField_normalizeScrape_ne _ _ hcont hmeta hstats]
    exact hbase
  · simp only [jsGet]
    rw [lookupField_normalizeProcess_ne _ _ hres hstat hpi]
    exact hbase
  · simp only [jsGet]
    exact hbase

/-- When both `timestamp` and `createdAt` are absent, the timestamp step is
an in-place insertion of the freshly generated timestamp. -/
theorem normalizeTimestampStep_inserts (nowIso : String) (l : List (String × JsValue))
    (h1 : lookupField l "timestamp" = none) (h2 : lookupField l "createdAt" = none) :
    normalizeTimestampStep nowIso l = setField l "timestamp" (.str nowIso) := by
  unfold normalizeTimestampStep
  rw [h1, h2]
  simp [truthyOpt]

/-! ## C8 -/

/-- Counterexample to C8 as stated: an empty-string body does not parse as
JSON, yet the transformer returns `data = null` (the falsy-body guard fires
first), not the `{content, type: text}` wrapper the claim requires. -/
theorem c8_counterexample :
    rtEx.jsonParse "" = none
    ∧ (transformResponse rtEx
        { status := 200, statusText := "OK", data := .str "", headers := [] } "scrape"
        { startTime := some 1000, requestId := some "req1" }).data = .null
    ∧ JsValue.null ≠ .obj [("content", .str ""), ("type", .str "text")] :=
  ⟨rfl, rfl, fun h => JsValue.noConfusion h⟩

/-- Statement of the amended normalization round-trip claim for a response
with status `< 400`: a JSON-object body yields data that agrees with the body
on every key outside the enrichment surface; a non-empty string body that
fails to parse as JSON yields the plain-text wrapper; a falsy body (such as
the empty string) yields `data = null`. -/
def C8Statement (rt : JsRuntime) (response : HttpResponse) (ct : String)
    (options : TransformOptions) : Prop :=
  (∀ o k, response.data = .obj o → k ∉ enrichedKeys →
    jsGet (transformResponse rt response ct options).data k = lookupField o k)
  ∧ (∀ s, response.data = .str s → s ≠ "" → rt.jsonParse s = none →
      (transformResponse rt response ct options).data
        = .obj [("content", .str s), ("type", .str "text")])
  ∧ (truthy response.data = false →
      (transformResponse rt response ct options).data = .null)

/-- C8 (amended): for a response with status below 400, a JSON-object body
produces `data` deep-equal to the body apart from the normalization
enrichment keys; a non-empty string body that does not parse as JSON produces
`data = {content: <the original string>, type: "text"}`; an empty (falsy)
body produces `data = null`. -/
theorem c8_success_normalization (rt : JsRuntime) (response : HttpResponse) (ct : String)
    (options : TransformOptions) (h : response.status < 400) :
    C8Statement rt response ct options := by
  have hdata : (transformResponse rt response ct options).data
      = parseResponseData rt.jsonParse response.data ct rt.nowIso := by
    unfold transformResponse
    rw [if_neg (by omega : ¬ response.status ≥ 400)]
    rfl
  refine ⟨?_, ?_, ?_⟩
  · intro o k ho hk
    rw [hdata, ho]
    have : parseResponseData rt.jsonParse (.obj o) ct rt.nowIso
        = normalizeResponseObject (.obj o) ct rt.nowIso := by
      unfold parseResponseData
      rfl
    rw [this]
    exact lookupField_normalizeResponseObject_ne o ct rt.nowIso k hk
  · intro s hs hne hparse
    rw [hdata, hs]
    unfold parseResponseData
    have htr : truthy (JsValue.str s) = true := by simp [truthy, hne]
    rw [htr]
    simp [hparse]
  · intro hfalsy
    rw [hdata]
    unfold parseResponseData
    simp [hfalsy]

/-- Witness for the amended C8 at a concrete 200 response with an object
body. -/
theorem c8_success_normalization_witness :
    (200 < 400)
    ∧ C8Statement rtEx
        { status := 200, statusText := "OK",
          data := .obj [("a", .str "x"), ("timestamp", .str "t0")], headers := [] }
        "scrape" { startTime := some 1000, requestId := some "req1" } :=
  ⟨by decide,
   c8_success_normalization rtEx
     { status := 200, statusText := "OK",
       data := .obj [("a", .str "x"), ("timestamp", .str "t0")], headers := [] }
     "scrape" { startTime := some 1000, requestId := some "req1" } (by decide)⟩

/-! ## C9 -/

theorem categorizeError_client_iff (status : Nat) (h : 400 ≤ status) :
    categorizeError status = "client_error" ↔ (400 ≤ status ∧ status ≤ 499) := by
  unfold categorizeError
  by_cases h5 : status < 500
  · rw [if_pos (⟨h, h5⟩ : 400 ≤ status ∧ status < 500)]
    exact ⟨fun _ => ⟨h, by omega⟩, fun _ => rfl⟩
  · rw [if_neg (fun hc => h5 hc.2), if_pos (by omega : 500 ≤ status)]
    exact ⟨fun hh => absurd hh (by decide), fun hh => absurd hh (by omega)⟩

theorem categorizeError_server_iff (status : Nat) (h : 400 ≤ status) :
    categorizeError status = "server_error" ↔ 500 ≤ status := by
  unfold categorizeError
  by_cases h5 : status < 500
  · rw [if_pos (⟨h, h5⟩ : 400 ≤ status ∧ status < 500)]
    exact ⟨fun hh => absurd hh (by decide), fun hh => absurd hh (by omega)⟩
  · rw [if_neg (fun hc => h5 hc.2), if_pos (by omega : 500 ≤ status)]
    exact ⟨fun _ => by omega, fun _ => rfl⟩

theorem extractErrorMessage_str (response : HttpResponse) (s : String)
    (hd : response.data = .str s) (hs : s ≠ "") :
    extractErrorMessage response = .str s := by
  unfold extractErrorMessage
  rw [hd]
  simp [truthy, hs]

theorem extractErrorMessage_message_field (response : HttpResponse)
    (o : List (String × JsValue)) (m : JsValue) (hd : response.data = .obj o)
    (hm : lookupField o "message" = some m) (htm : truthy m = true) :
    extractErrorMessage response = m := by
  unfold extractErrorMessage
  rw [hd]
  simp [truthy_obj, jsGet, truthyOpt_some, hm, htm]

theorem extractErrorMessage_error_field (response : HttpResponse)
    (o : List (String × JsValue)) (v : JsValue) (hd : response.data = .obj o)
    (hm : truthyOpt (lookupField o "message") = false)
    (he : lookupField o "error" = some v) (htv : truthy v = true) :
    extractErrorMessage response = v := by
  unfold extractErrorMessage
  rw [hd]
  simp [truthy_obj, jsGet, truthyOpt_some, hm, he, htv]

theorem extractErrorMessage_falsy_body (response : HttpResponse)
    (hd : truthy response.data = false) :
    extractErrorMessage response = .str (statusTextOrDefault response) := by
  unfold extractErrorMessage
  rw [hd]
  rfl

theorem extractErrorMessage_plain_obj (response : HttpResponse)
    (o : List (String × JsValue)) (hd : response.data = .obj o)
    (hm : truthyOpt (lookupField o "message") = false)
    (he : truthyOpt (lookupField o "error") = false) :
    extractErrorMessage response = .str (statusTextOrDefault response) := by
  unfold extractErrorMessage
  rw [hd]
  simp [truthy, jsGet, hm, he]

/-- Statement of the error-envelope claim for a response with status
`>= 400`: the result fails, the error type is `client_error` exactly on
400-499 and `server_error` exactly on `>= 500`, and the message follows the
preference order `truthy string body`, then truthy `message` field, then
truthy `error` field, then the HTTP status text. -/
def C9Statement (rt : JsRuntime) (response : HttpResponse) (ct : String)
    (options : TransformOptions) : Prop :=
  (transformResponse rt response ct options).success = false
  ∧ ∃ e : ErrorInfo,
      (transformResponse rt response ct options).error = some e
      ∧ (e.type = "client_error" ↔ (400 ≤ response.status ∧ response.status ≤ 499))
      ∧ (e.type = "server_error" ↔ 500 ≤ response.status)
      ∧ (∀ s, response.data = .str s → s ≠ "" → e.message = .str s)
      ∧ (∀ o m, response.data = .obj o → lookupField o "message" = some m →
          truthy m = true → e.message = m)
      ∧ (∀ o v, response.data = .obj o → truthyOpt (lookupField o "message") = false →
          lookupField o "error" = some v → truthy v = true → e.message = v)
      ∧ (truthy response.data = false →
          e.message = .str (statusTextOrDefault response))
      ∧ (∀ o, response.data = .obj o → truthyOpt (lookupField o "message") = false →
          truthyOpt (lookupField o "error") = false →
          e.message = .str (statusTextOrDefault response))

/-- C9: a response with status `>= 400` is transformed into an error envelope
with `success:false` whose message is taken, in order of preference, from a
string body, then the body's `message` field, then the body's `error` field,
else the HTTP status text; the error type is `client_error` exactly for
400-499 and `server_error` exactly for `>= 500`. -/
theorem c9_error_envelope (rt : JsRuntime) (response : HttpResponse) (ct : String)
    (options : TransformOptions) (h : 400 ≤ response.status) :
    C9Statement rt response ct options := by
  have hsucc : (transformResponse rt response ct options).success = false := by
    unfold transformResponse transformErrorResponse
    rw [if_pos (show response.status ≥ 400 from h)]
  have herror : (transformResponse rt response ct options).error
      = some { code := response.status
               message := extractErrorMessage response
               details := if truthy response.data then response.data else .null
               type := categorizeError response.status } := by
    unfold transformResponse transformErrorResponse
    rw [if_pos (show response.status ≥ 400 from h)]
  refine ⟨hsucc,
    ⟨{ code := response.status
       message := extractErrorMessage response
       details := if truthy response.data then response.data else .null
       type := categorizeError response.status },
     herror, categorizeError_client_iff response.status h,
     categorizeError_server_iff response.status h, ?_, ?_, ?_, ?_, ?_⟩⟩
  · intro s hd hs
    exact extractErrorMessage_str response s hd hs
  · intro o m hd hm htm
    exact extractErrorMessage_message_field response o m hd hm htm
  · intro o v hd hm he htv
    exact extractErrorMessage_error_field response o v hd hm he htv
  · intro hd
    exact extractErrorMessage_falsy_body response hd
  · intro o hd hm he
    exact extractErrorMessage_plain_obj response o hd hm he

/-- Witness for C9 at a concrete 404 response with a string body. -/
theorem c9_error_envelope_witness :
    (400 ≤ 404)
    ∧ C9Statement rtEx
        { status := 404, statusText := "Not Found", data := .str "resource missing",
          headers := [] } "scrape" { startTime := some 1000, requestId := some "req1" } :=
  ⟨by decide,
   c9_error_envelope rtEx
     { status := 404, statusText := "Not Found", data := .str "resource missing",
       headers := [] } "scrape" { startTime := some 1000, requestId := some "req1" }
     (by decide)⟩

/-! ## C10 -/

/-- Statement of the timestamp-enrichment claim: for an object body lacking
both `timestamp` and `createdAt`, the normalizer's output carries the freshly
generated timestamp and is never identical to the body. -/
def C10Statement (o : List (String × JsValue)) (ct nowIso : String) : Prop :=
  jsGet (normalizeResponseObject (.obj o) ct nowIso) "timestamp" = some (.str nowIso)
  ∧ normalizeResponseObject (.obj o) ct nowIso ≠ .obj o

/-- C10: for every non-null object response body lacking both `timestamp`
and `createdAt`, and every command type, the normalizer inserts the freshly
generated `timestamp` into the returned data, so the returned data is never
identical to such a body. -/
theorem c10_timestamp_enrichment (o : List (String × JsValue)) (ct nowIso : String)
    (h1 : lookupField o "timestamp" = none) (h2 : lookupField o "createdAt" = none) :
    C10Statement o ct nowIso := by
  have hid1 : lookupField (normalizeIdStep (.obj o) o) "timestamp" = none :=
    (lookupField_normalizeIdStep_ne (.obj o) o "timestamp" (by decide)).trans h1
  have hid2 : lookupField (normalizeIdStep (.obj o) o) "createdAt" = none :=
    (lookupField_normalizeIdStep_ne (.obj o) o "createdAt" (by decide)).trans h2
  have hts : normalizeTimestampStep nowIso (normalizeIdStep (.obj o) o)
      = setField (normalizeIdStep (.obj o) o) "timestamp" (.str nowIso) :=
    normalizeTimestampStep_inserts nowIso (normalizeIdStep (.obj o) o) hid1 hid2
  have hmain : jsGet (normalizeResponseObject (.obj o) ct nowIso) "timestamp"
      = some (.str nowIso) := by
    unfold normalizeResponseObject
    simp only [spreadFields]
    rw [hts]
    split
    · simp only [jsGet]
      rw [lookupField_normalizeScrape_ne _ _ (by decide) (by decide) (by decide)]
      exact lookupField_setField_self _ _ _
    · simp only [jsGet]
      rw [lookupField_normalizeProcess_ne _ _ (by decide) (by decide) (by decide)]
      exact lookupField_setField_self _ _ _
    · simp only [jsGet]
      exact lookupField_setField_self _ _ _
  refine ⟨hmain, fun heq => ?_⟩
  rw [heq] at hmain
  simp only [jsGet] at hmain
  rw [h1] at hmain
  exact Option.noConfusion hmain

/-- Witness for C10 at a concrete timestamp-free object body. -/
theorem c10_timestamp_enrichment_witness :
    lookupField [("a", JsValue.str "x")] "timestamp" = none
    ∧ C10Statement [("a", JsValue.str "x")] "scrape" "2026-01-01T00:00:00.000Z" :=
  ⟨rfl, c10_timestamp_enrichment [("a", JsValue.str "x")] "scrape"
    "2026-01-01T00:00:00.000Z" rfl rfl⟩

end N8n
